import Mathlib

/-
Verification development for `image/L0ImageSmoothing/l0_image_smoothing.py`
(L0 gradient-norm image smoothing, TensorFlow implementation).

The Python module is embedded shallowly:

* tensors become nested lists over `ℚ` (the claims under scrutiny are about
  shapes, dataflow, thresholding and control flow, none about float rounding);
* `tf.signal.fft2d` is the 2-D discrete Fourier transform over the inner-most
  two axes with the primitive roots `exp(-2*pi*i/n)` passed explicitly as ring
  elements, so the development stays inside an executable commutative ring.
  Every concrete theorem below instantiates axis lengths 1 and 2 only, whose
  exact primitive roots are 1 and -1, both rational;
* Python/TensorFlow runtime failures (ValueError from tuple unpacking,
  sparse-tensor validation errors, UnboundLocalError) become an explicit
  `PyErr` in an `Except` result;
* the `while beta < beta_max` loop is run on explicit fuel; because the loop
  body ends with `beta = beta_max`, fuel 2 is always sufficient, which is
  proved below (`runLoop_fuel_two_suffices`).
-/

namespace L0Smooth

/-- 3-D tensor with entries in `R`, axis order (rows `N`, columns `M`,
channels `C`), matching the `(H, W, C)` layout of the Python image. -/
abbrev Tens3 (R : Type) := List (List (List R))

/-- The image/value type used by the smoothing loop (float32 modelled as ℚ). -/
abbrev Img := Tens3 ℚ

/-- Entry accessor for 2-D tensors, with numpy-style default 0 out of range. -/
def at2 (t : List (List ℚ)) (i j : ℕ) : ℚ := (t.getD i []).getD j 0

/-- Entry accessor for 3-D tensors. -/
def at3 (x : Img) (i j c : ℕ) : ℚ := ((x.getD i []).getD j []).getD c 0

/-- Entry accessor for 2-D boolean masks. -/
def atB (m : List (List Bool)) (i j : ℕ) : Bool := (m.getD i []).getD j false

/-- `t` has exactly `N` rows of `M` entries each. -/
def IsShape2 {α : Type} (t : List (List α)) (N M : ℕ) : Prop :=
  t.length = N ∧ ∀ i, i < N → (t.getD i []).length = M

/-- `x` has exactly shape `(N, M, C)`. -/
def IsShape3 (x : Img) (N M C : ℕ) : Prop :=
  x.length = N ∧ ∀ i, i < N → (x.getD i []).length = M ∧
    ∀ j, j < M → ((x.getD i []).getD j []).length = C

instance {α : Type} (t : List (List α)) (N M : ℕ) : Decidable (IsShape2 t N M) := by
  unfold IsShape2; infer_instance

instance (x : Img) (N M C : ℕ) : Decidable (IsShape3 x N M C) := by
  unfold IsShape3; infer_instance

/-- Runtime failures of the Python module, as surfaced by Python/TensorFlow.
Each constructor names the concrete exception site:

* `valueErrorUnpack`: `N, M, C = img.shape` on an array that is not 3-D;
* `sparseShapeMismatch`: `tf.SparseTensor` with `len(values) != len(indices)`;
* `sparseIndexOOB`: `tf.sparse.to_dense` index validation out of bounds;
* `sliceIndexOOB`: the column slice `psf[:, 0]` on a tensor with 0 columns;
* `unboundLocal`: `_zero_pad_fxypsf` falls through both branches and returns
  the never-assigned local `psf_padded`;
* `sparseEmptyIndices`: `tf.SparseTensor` given an empty Python list of
  indices (its tensor has rank 1, not the required rank 2);
* `fuelExhausted`: modelling artifact of the fuelled loop, never reachable
  with fuel ≥ 2 (see `runLoop_fuel_two_suffices`). -/
inductive PyErr where
  | valueErrorUnpack
  | sparseShapeMismatch
  | sparseIndexOOB
  | sliceIndexOOB
  | unboundLocal
  | sparseEmptyIndices
  | fuelExhausted
  deriving DecidableEq

/-- `tf.sparse.to_dense (tf.SparseTensor indices values (H, W))` for a static
list of index pairs.  `tf.SparseTensor.__init__` asserts that `values` and
`indices` agree on their leading dimension; `to_dense` (with its default
`validate_indices=True`) then checks every index is in bounds (the static
index lists used by the source are already lexicographically ordered). -/
def sparseToDense {R : Type} [CommRing R] (indices : List (ℕ × ℕ))
    (vals : List R) (H W : ℕ) : Except PyErr (List (List R)) :=
  if vals.length = indices.length then
    if ∀ p ∈ indices, p.1 < H ∧ p.2 < W then
      .ok ((List.range H).map (fun i => (List.range W).map (fun j =>
        (indices.zip vals).foldr
          (fun q acc => if q.1.1 = i ∧ q.1.2 = j then q.2 else acc) 0)))
    else .error .sparseIndexOOB
  else .error .sparseShapeMismatch

/-- `_zero_pad_fxypsf(psf, shape)` from the source (the Lean name drops the
leading underscore).  Pads the point-spread function to the target image
shape by building a sparse tensor and densifying it:

* `psf.shape[0] == 1`: indices `[[0,0],[0,1]]`, values `psf[0]` (the whole
  first row — so a 1-row kernel whose row does not have exactly 2 entries
  dies on the `SparseTensor` length assertion);
* `psf.shape[0] == 2`: indices `[[0,0],[1,0]]`, values `psf[:, 0]` (the
  first column — so any 2-row kernel with at least one column is accepted,
  whatever its width);
* any other row count: neither branch assigns `psf_padded`, and the final
  `return psf_padded` raises `UnboundLocalError`. -/
def zero_pad_fxypsf {R : Type} [CommRing R] (psf : List (List R))
    (H W : ℕ) : Except PyErr (List (List R)) :=
  if psf.length = 1 then
    sparseToDense [(0, 0), (0, 1)] (psf.headD []) H W
  else if psf.length = 2 then
    if ∀ r ∈ psf, 1 ≤ r.length then
      sparseToDense [(0, 0), (1, 0)] (psf.map (fun r => r.headD 0)) H W
    else .error .sliceIndexOOB
  else .error .unboundLocal

/-- `tf.roll(l, shift, axis)` on one axis: the element at index `i` moves to
index `(i + shift) mod n`, i.e. `out[j] = l[(j - shift) mod n]`. -/
def rollList {α : Type} (s : ℤ) (d : α) (l : List α) : List α :=
  (List.range l.length).map
    (fun j => l.getD (((j : ℤ) - s) % (l.length : ℤ)).toNat d)

/-- The 2-D discrete Fourier transform of an `H × W` matrix, with the two
primitive roots (`exp(-2*pi*i/H)` and `exp(-2*pi*i/W)`) supplied as the ring
elements `wH`, `wW`:  `X[k1][k2] = sum_j1 sum_j2 wH^(j1*k1) * wW^(j2*k2) *
x[j1][j2]`.  This is exactly what `tf.signal.fft2d` computes on the
inner-most two axes of its argument. -/
def dft2 {R : Type} [CommRing R] (wH wW : R) (x : List (List R)) :
    List (List R) :=
  (List.range x.length).map (fun k1 =>
    (List.range (x.headD []).length).map (fun k2 =>
      ((List.range x.length).map (fun j1 =>
        ((List.range (x.headD []).length).map (fun j2 =>
          wH ^ (j1 * k1) * wW ^ (j2 * k2) * ((x.getD j1 []).getD j2 0))).sum)).sum))

/-- `_fxypsf_to_otf(psf, target)` from the source (leading underscore
dropped): zero-pad the kernel to the target spatial shape, then for each
axis of the *original* kernel roll the padded array by `-axis_sz // 2`
(Python floor division of the negated size: `-1 // 2 = -1`, `-2 // 2 = -1`,
modelled exactly by `Int.fdiv`), then take the 2-D FFT. -/
def fxypsf_to_otf {R : Type} [CommRing R] (wH wW : R) (psf : List (List R))
    (H W : ℕ) : Except PyErr (List (List R)) :=
  match zero_pad_fxypsf psf H W with
  | .error e => .error e
  | .ok padded =>
    let rows : ℤ := psf.length
    let cols : ℤ := (psf.headD []).length
    let rolled0 := rollList (Int.fdiv (-rows) 2) [] padded
    let rolled1 := rolled0.map (fun r => rollList (Int.fdiv (-cols) 2) 0 r)
    .ok (dft2 wH wW rolled1)

/-- Channel-vector subtraction (elementwise `-` on the innermost axis). -/
def sub1 (a b : List ℚ) : List ℚ := List.zipWith (fun x y => x - y) a b

/-- Row-slice subtraction (elementwise `-` on `(M, C)` slices). -/
def sub2 (a b : List (List ℚ)) : List (List ℚ) := List.zipWith sub1 a b

/-- Elementwise addition of two 3-D tensors (`tf` broadcast-free `+`). -/
def tAdd3 (a b : Img) : Img :=
  List.zipWith (List.zipWith (List.zipWith (fun x y => x + y))) a b

/-- `tf.zeros_like(S)`. -/
def zerosLike (S : Img) : Img := S.map (fun r => r.map (fun ch => ch.map (fun _ => 0)))

/-- `tf.math.pow(x, 2)` elementwise. -/
def tpow2 (x : Img) : Img := x.map (fun r => r.map (fun ch => ch.map (fun a => a ^ 2)))

/-- `tf.math.reduce_sum(x, axis=2)`: sum over the channel axis. -/
def reduceSum2 (x : Img) : List (List ℚ) := x.map (fun r => r.map (fun ch => ch.sum))

/-- The `h` tensor of one loop iteration:
`h = tf.zeros_like(S)`, then `h += tf.concat([S[:, 1:] - S[:, :-1],
S[:, 0:1, :] - S[:, M-1:M, :]], axis=1)`. -/
def compute_h (M : ℕ) (S : Img) : Img :=
  let first_hdiff := S.map (fun r => List.zipWith sub1 (r.drop 1) r.dropLast)
  let last_hdiff := S.map (fun r => List.zipWith sub1 (r.take 1) (r.drop (M - 1)))
  let h_diff := List.zipWith (fun a b => a ++ b) first_hdiff last_hdiff
  tAdd3 (zerosLike S) h_diff

/-- The `v` tensor of one loop iteration:
`v = tf.zeros_like(S)`, then `v += tf.concat([S[1:] - S[:-1],
S[0:1, :, :] - S[N-1:N, :, :]], axis=0)`. -/
def compute_v (N : ℕ) (S : Img) : Img :=
  let first_vdiff := List.zipWith sub2 (S.drop 1) S.dropLast
  let last_vdiff := List.zipWith sub2 (S.take 1) (S.drop (N - 1))
  let v_diff := first_vdiff ++ last_vdiff
  tAdd3 (zerosLike S) v_diff

/-- `t = tf.math.reduce_sum(tf.math.pow(h, 2) + tf.math.pow(v, 2), axis=2)`:
the per-pixel squared gradient magnitude summed across channels. -/
def grad_t (h v : Img) : List (List ℚ) := reduceSum2 (tAdd3 (tpow2 h) (tpow2 v))

/-- The boolean mask construction of the loop: `tf.where(t < threshold)` is
turned into a Python list of index tensors and fed to `tf.SparseTensor`.
When *no* pixel is below the threshold that list is empty, and
`tf.SparseTensor` rejects it (an empty list converts to a tensor of rank 1,
not the required rank 2), raising `ValueError`; otherwise densifying with
default `False` yields exactly the pointwise mask `t < threshold`. -/
def buildMask (t : List (List ℚ)) (thr : ℚ) : Except PyErr (List (List Bool)) :=
  if ∀ row ∈ t, ∀ x ∈ row, ¬ (x < thr) then
    .error .sparseEmptyIndices
  else
    .ok (t.map (fun row => row.map (fun x => if x < thr then true else false)))

/-- `tf.tile(tf.expand_dims(mask, 2), [1, 1, C])`: broadcast the pixel mask
across the `C` channels. -/
def tileMask (C : ℕ) (mask : List (List Bool)) : List (List (List Bool)) :=
  mask.map (fun row => row.map (fun b => List.replicate C b))

/-- The numpy boolean-mask assignment `x[mask3] = 0` (then converting back to
a tensor): entries where the tiled mask is `True` become 0, all others are
kept. -/
def applyMask3 (mask3 : List (List (List Bool))) (x : Img) : Img :=
  List.zipWith (List.zipWith (List.zipWith (fun b a => if b then 0 else a))) mask3 x

/-- The full masking step applied to `h` and `v`: tile the pixel mask across
channels and zero the selected entries. -/
def maskStep (C : ℕ) (mask : List (List Bool)) (x : Img) : Img :=
  applyMask3 (tileMask C mask) x

/-- `numer2` of one loop iteration (computed by the source and then
discarded — the image subproblem that would consume it is absent):
`numer2 = tf.zeros_like(S)`, then
`numer2 += tf.concat([h[:, M-1:M, :] - h[:, 0:1, :], -(h[:, 1:] - h[:, :-1])], axis=1)`,
then `numer2 += tf.concat([v[N-1:N, :, :] - v[0:1, :, :], -(v[1:] - v[:-1])], axis=0)`. -/
def compute_numer2 (N M : ℕ) (S h v : Img) : Img :=
  let numer2_h := List.zipWith (fun a b => a ++ b.map (fun ch => ch.map (fun x => -x)))
    (h.map (fun r => List.zipWith sub1 ((r.drop (M - 1)).take 1) (r.take 1)))
    (h.map (fun r => List.zipWith sub1 (r.drop 1) r.dropLast))
  let numer2_v := (List.zipWith sub2 ((v.drop (N - 1)).take 1) (v.take 1)) ++
    (List.zipWith sub2 (v.drop 1) v.dropLast).map
      (fun r => r.map (fun ch => ch.map (fun x => -x)))
  tAdd3 (tAdd3 (zerosLike S) numer2_h) numer2_v

/-- The state carried from one `while beta < beta_max` iteration to the next:
only `S` and `beta` survive an iteration (`h`, `v`, `t`, the mask and
`numer2` are locals). -/
structure LoopSt where
  S : Img
  beta : ℚ
  deriving DecidableEq

/-- One iteration of the `while beta < beta_max` body.  Note the two source
facts every claim about the loop hinges on:

* `S` is never reassigned — the frequency-domain image subproblem
  (`S_new = IFFT2D((img_fft + beta*FFT2D(numer2)) / (1 + beta*denom2))`)
  is absent from the source, `numer2` (and the unused `denom = 1 +
  beta*denom2`) are computed and dropped;
* the final statement of the body is `beta = beta_max`, not
  `beta = beta * kappa`, so any successful iteration ends the loop
  (`kappa` is never read anywhere in the function). -/
def loopBody (lam bmax : ℚ) (N M C : ℕ) (st : LoopSt) : Except PyErr LoopSt :=
  let h := compute_h M st.S
  let v := compute_v N st.S
  let t := grad_t h v
  let threshold := lam / st.beta
  match buildMask t threshold with
  | .error e => .error e
  | .ok mask =>
    let hMasked := maskStep C mask h
    let vMasked := maskStep C mask v
    let _numer2 := compute_numer2 N M st.S hMasked vMasked
    .ok ⟨st.S, bmax⟩

/-- The `while beta < beta_max` loop, with explicit fuel and an iteration
counter.  Because `loopBody` always sets `beta` to `beta_max`, fuel 2 is
sufficient for every input (`runLoop_fuel_two_suffices`). -/
def runLoop (lam bmax : ℚ) (N M C : ℕ) :
    ℕ → LoopSt → ℕ → Except PyErr (LoopSt × ℕ)
  | 0, _, _ => .error .fuelExhausted
  | fuel + 1, st, count =>
    if st.beta < bmax then
      match loopBody lam bmax N M C st with
      | .error e => .error e
      | .ok st2 => runLoop lam bmax N M C fuel st2 (count + 1)
    else .ok (st, count)

/-- A numpy array as passed to `l0_image_smoothing`: its shape together with
a 3-D accessor for its samples.  Only 3-D arrays ever have their data read —
a non-3-D array fails at `N, M, C = img.shape` before any data access. -/
structure PyArray where
  shape : List ℕ
  item : ℕ → ℕ → ℕ → ℚ

/-- Materialise the samples of a (3-D) `PyArray` as a nested list. -/
def toImg (a : PyArray) (N M C : ℕ) : Img :=
  (List.range N).map (fun i => (List.range M).map (fun j =>
    (List.range C).map (fun c => a.item i j c)))

/-- `numer1 = tf.signal.fft2d(img_tensor)` as the source computes it:
`img_tensor` has shape `(N, M, C)` and `tf.signal.fft2d` transforms the
*inner-most two* axes, i.e. each `(M, C)` slice — the `M` axis paired with
the channel axis, not the two spatial axes.  `wM`, `wC` are the primitive
roots for the axis lengths `M` and `C`. -/
def numer1_model {R : Type} [CommRing R] (wM wC : R) (img : Tens3 R) : Tens3 R :=
  img.map (fun slice => dft2 wM wC slice)

/-- Modelled from the spec: the per-channel forward 2-D FFT over the spatial
axes `(H, W)` that the spec prescribes for `img_fft` ("the forward 2D FFT
over the spatial axes (H, W) of each channel").  Comparison definition for
claim C7; `wN`, `wM` are the primitive roots for the two spatial axis
lengths. -/
def fft2_per_channel_spec {R : Type} [CommRing R] (wN wM : R) (img : Tens3 R) :
    Tens3 R :=
  let N := img.length
  let M := (img.headD []).length
  let C := ((img.headD []).headD []).length
  (List.range N).map (fun k1 => (List.range M).map (fun k2 =>
    (List.range C).map (fun c =>
      ((List.range N).map (fun j1 =>
        ((List.range M).map (fun j2 =>
          wN ^ (j1 * k1) * wM ^ (j2 * k2) *
            (((img.getD j1 []).getD j2 []).getD c 0))).sum)).sum)))

/-- `l0_image_smoothing(img, _lambda, kappa, beta_max)`.  Faithful to the
source in the following observable respects:

* `N, M, C = img.shape` raises `ValueError` unless the array is 3-D;
* `S = tf.cast(img, tf.float32) / 255`;
* the two OTFs are built from the kernels `[[1, -1]]` and `[[1], [-1]]`
  against the spatial shape `(N, M)`; building them can raise (sparse index
  validation) and their values feed only `denom2`/`denom`, which nothing in
  the loop reads (the image subproblem is missing), so the model binds and
  discards them (the DFT roots passed are irrelevant and instantiated at 1);
* `numer1 = tf.signal.fft2d(img_tensor)` likewise feeds nothing
  (see `numer1_model` for its value);
* `kappa` is never read;
* the loop starts at `beta = 2 * _lambda` and the function ends with a bare
  `return`, i.e. it returns Python `None` (`none`), never an image. -/
def l0_image_smoothing (a : PyArray) (lam kappa bmax : ℚ) :
    Except PyErr (Option Img) :=
  match a.shape with
  | [N, M, C] =>
    let S0 := (toImg a N M C).map (fun r => r.map (fun ch => ch.map (fun x => x / 255)))
    match fxypsf_to_otf (1 : ℚ) 1 [[1, -1]] N M with
    | .error e => .error e
    | .ok _otfFx =>
      match fxypsf_to_otf (1 : ℚ) 1 [[1], [-1]] N M with
      | .error e => .error e
      | .ok _otfFy =>
        match runLoop lam bmax N M C 2 ⟨S0, 2 * lam⟩ 0 with
        | .error e => .error e
        | .ok _ => .ok none
  | _ => .error .valueErrorUnpack

/-- Modelled from the spec: the number of iterations the spec's β schedule
(`β₀ = 2λ`, `β_{i+1} = β_i * κ`, exit once `β ≥ β_max`) performs, i.e. the
least `n` with `2λ * κ^n ≥ β_max`, which is `ceil(log_κ(β_max / (2λ)))`.
Comparison definition for claim C3. -/
def specIterCount (lam kappa bmax : ℚ)
    (h : ∃ n : ℕ, bmax ≤ 2 * lam * kappa ^ n) : ℕ := Nat.find h

/-! ### Pointwise access lemmas for the list combinators -/

theorem getD_zipWith {α β γ : Type} (f : α → β → γ) (l1 : List α) (l2 : List β)
    (i : ℕ) (d1 : α) (d2 : β) (d3 : γ) (h1 : i < l1.length) (h2 : i < l2.length) :
    (List.zipWith f l1 l2).getD i d3 = f (l1.getD i d1) (l2.getD i d2) := by
  rw [List.getD_eq_getElem?_getD, List.getElem?_zipWith,
    List.getElem?_eq_getElem h1, List.getElem?_eq_getElem h2,
    List.getD_eq_getElem l1 d1 h1, List.getD_eq_getElem l2 d2 h2]
  rfl

theorem getD_map {α β : Type} (f : α → β) (l : List α) (i : ℕ) (d1 : α) (d2 : β)
    (h : i < l.length) :
    (l.map f).getD i d2 = f (l.getD i d1) := by
  rw [List.getD_eq_getElem?_getD, List.getElem?_map, List.getElem?_eq_getElem h,
    List.getD_eq_getElem l d1 h]
  rfl

theorem getD_append_left {α : Type} (l1 l2 : List α) (i : ℕ) (d : α)
    (h : i < l1.length) :
    (l1 ++ l2).getD i d = l1.getD i d := by
  rw [List.getD_eq_getElem?_getD, List.getElem?_append, if_pos h,
    ← List.getD_eq_getElem?_getD]

theorem getD_append_right {α : Type} (l1 l2 : List α) (i : ℕ) (d : α)
    (h : l1.length ≤ i) :
    (l1 ++ l2).getD i d = l2.getD (i - l1.length) d := by
  rw [List.getD_eq_getElem?_getD, List.getElem?_append_right h,
    ← List.getD_eq_getElem?_getD]

theorem getD_take {α : Type} (l : List α) (n i : ℕ) (d : α) (h : i < n) :
    (l.take n).getD i d = l.getD i d := by
  rw [List.getD_eq_getElem?_getD, List.getElem?_take, if_pos h,
    ← List.getD_eq_getElem?_getD]

theorem getD_drop {α : Type} (l : List α) (n i : ℕ) (d : α) :
    (l.drop n).getD i d = l.getD (n + i) d := by
  rw [List.getD_eq_getElem?_getD, List.getElem?_drop,
    ← List.getD_eq_getElem?_getD]

theorem getD_dropLast {α : Type} (l : List α) (i : ℕ) (d : α)
    (h : i < l.length - 1) :
    l.dropLast.getD i d = l.getD i d := by
  rw [List.getD_eq_getElem?_getD, List.getElem?_dropLast, if_pos h,
    ← List.getD_eq_getElem?_getD]

theorem getD_replicate {α : Type} (n i : ℕ) (a d : α) (h : i < n) :
    (List.replicate n a).getD i d = a := by
  rw [List.getD_eq_getElem?_getD, List.getElem?_replicate, if_pos h]
  rfl

theorem sum_eq_range_getD (ch : List ℚ) :
    ch.sum = ((List.range ch.length).map (fun c => ch.getD c 0)).sum := by
  induction ch with
  | nil => simp
  | cons a tl ih =>
    rw [List.sum_cons, List.length_cons, List.range_succ_eq_map]
    simp only [List.map_cons, List.map_map, List.sum_cons]
    simp only [List.getD]
    rw [ih]
    congr 1

/-! ### Shape and pointwise lemmas for the tensor operations -/

theorem shape3_rows {S : Img} {N M C : ℕ} (hS : IsShape3 S N M C) {i : ℕ}
    (hi : i < N) : (S.getD i []).length = M := (hS.2 i hi).1

theorem shape3_chans {S : Img} {N M C : ℕ} (hS : IsShape3 S N M C) {i j : ℕ}
    (hi : i < N) (hj : j < M) : ((S.getD i []).getD j []).length = C :=
  (hS.2 i hi).2 j hj

theorem shape3_zerosLike {S : Img} {N M C : ℕ} (hS : IsShape3 S N M C) :
    IsShape3 (zerosLike S) N M C := by
  obtain ⟨hlen, hrow⟩ := hS
  constructor
  · rw [zerosLike, List.length_map, hlen]
  · intro i hi
    rw [zerosLike, getD_map _ S i [] _ (by rw [hlen]; exact hi)]
    constructor
    · rw [List.length_map, (hrow i hi).1]
    · intro j hj
      rw [getD_map _ _ j [] _ (by rw [(hrow i hi).1]; exact hj),
        List.length_map, (hrow i hi).2 j hj]

theorem at3_zerosLike {S : Img} {N M C : ℕ} (hS : IsShape3 S N M C)
    {i j c : ℕ} (hi : i < N) (hj : j < M) (hc : c < C) :
    at3 (zerosLike S) i j c = 0 := by
  unfold at3 zerosLike
  rw [getD_map _ S i [] _ (by rw [hS.1]; exact hi),
    getD_map _ _ j [] _ (by rw [shape3_rows hS hi]; exact hj),
    getD_map _ _ c 0 _ (by rw [shape3_chans hS hi hj]; exact hc)]

theorem shape3_tAdd3 {A B : Img} {N M C : ℕ} (hA : IsShape3 A N M C)
    (hB : IsShape3 B N M C) : IsShape3 (tAdd3 A B) N M C := by
  constructor
  · rw [tAdd3, List.length_zipWith, hA.1, hB.1, min_self]
  · intro i hi
    rw [tAdd3, getD_zipWith _ A B i [] [] _ (by rw [hA.1]; exact hi)
      (by rw [hB.1]; exact hi)]
    constructor
    · rw [List.length_zipWith, shape3_rows hA hi, shape3_rows hB hi, min_self]
    · intro j hj
      rw [getD_zipWith _ _ _ j [] [] _ (by rw [shape3_rows hA hi]; exact hj)
        (by rw [shape3_rows hB hi]; exact hj),
        List.length_zipWith, shape3_chans hA hi hj, shape3_chans hB hi hj,
        min_self]

theorem at3_tAdd3 {A B : Img} {N M C : ℕ} (hA : IsShape3 A N M C)
    (hB : IsShape3 B N M C) {i j c : ℕ} (hi : i < N) (hj : j < M) (hc : c < C) :
    at3 (tAdd3 A B) i j c = at3 A i j c + at3 B i j c := by
  unfold at3 tAdd3
  rw [getD_zipWith _ A B i [] [] _ (by rw [hA.1]; exact hi)
    (by rw [hB.1]; exact hi),
    getD_zipWith _ _ _ j [] [] _ (by rw [shape3_rows hA hi]; exact hj)
    (by rw [shape3_rows hB hi]; exact hj),
    getD_zipWith _ _ _ c 0 0 _ (by rw [shape3_chans hA hi hj]; exact hc)
    (by rw [shape3_chans hB hi hj]; exact hc)]

theorem shape3_hdiff {S : Img} {N M C : ℕ} (hS : IsShape3 S N M C) :
    IsShape3 (List.zipWith (fun a b => a ++ b)
      (S.map (fun r => List.zipWith sub1 (r.drop 1) r.dropLast))
      (S.map (fun r => List.zipWith sub1 (r.take 1) (r.drop (M - 1))))) N M C := by
  constructor
  · rw [List.length_zipWith, List.length_map, List.length_map, hS.1, min_self]
  · intro i hi
    rw [getD_zipWith _ _ _ i [] [] _ (by rw [List.length_map, hS.1]; exact hi)
      (by rw [List.length_map, hS.1]; exact hi),
      getD_map _ S i [] _ (by rw [hS.1]; exact hi),
      getD_map _ S i [] _ (by rw [hS.1]; exact hi)]
    have hr : (S.getD i []).length = M := shape3_rows hS hi
    have hA : (List.zipWith sub1 ((S.getD i []).drop 1)
        (S.getD i []).dropLast).length = M - 1 := by
      rw [List.length_zipWith, List.length_drop, List.length_dropLast, hr, min_self]
    have hB : (List.zipWith sub1 ((S.getD i []).take 1)
        ((S.getD i []).drop (M - 1))).length = min (min 1 M) (M - (M - 1)) := by
      rw [List.length_zipWith, List.length_take, List.length_drop, hr]
    constructor
    · rw [List.length_append, hA, hB]; omega
    · intro j hj
      by_cases hjM : j + 1 < M
      · rw [getD_append_left _ _ j [] (by rw [hA]; omega),
          getD_zipWith _ _ _ j [] [] _ (by rw [List.length_drop, hr]; omega)
            (by rw [List.length_dropLast, hr]; omega),
          getD_drop, getD_dropLast _ _ _ (by rw [hr]; omega), sub1,
          List.length_zipWith, shape3_chans hS hi (show 1 + j < M by omega),
          shape3_chans hS hi hj, min_self]
      · rw [getD_append_right _ _ j [] (by rw [hA]; omega), hA]
        have hj0 : j - (M - 1) = 0 := by omega
        rw [hj0,
          getD_zipWith _ _ _ 0 [] [] _ (by rw [List.length_take, hr]; omega)
            (by rw [List.length_drop, hr]; omega),
          getD_take _ _ _ _ (by omega), getD_drop, sub1,
          List.length_zipWith, shape3_chans hS hi (show 0 < M by omega),
          shape3_chans hS hi (show M - 1 + 0 < M by omega), min_self]

theorem at3_hdiff {S : Img} {N M C : ℕ} (hS : IsShape3 S N M C) {i j c : ℕ}
    (hi : i < N) (hj : j < M) (hc : c < C) :
    at3 (List.zipWith (fun a b => a ++ b)
      (S.map (fun r => List.zipWith sub1 (r.drop 1) r.dropLast))
      (S.map (fun r => List.zipWith sub1 (r.take 1) (r.drop (M - 1))))) i j c
      = (if j + 1 < M then at3 S i (j + 1) c else at3 S i 0 c) - at3 S i j c := by
  have hr : (S.getD i []).length = M := shape3_rows hS hi
  unfold at3
  rw [getD_zipWith _ _ _ i [] [] _ (by rw [List.length_map, hS.1]; exact hi)
      (by rw [List.length_map, hS.1]; exact hi),
    getD_map _ S i [] _ (by rw [hS.1]; exact hi),
    getD_map _ S i [] _ (by rw [hS.1]; exact hi)]
  have hA : (List.zipWith sub1 ((S.getD i []).drop 1)
      (S.getD i []).dropLast).length = M - 1 := by
    rw [List.length_zipWith, List.length_drop, List.length_dropLast, hr, min_self]
  by_cases hjM : j + 1 < M
  · rw [if_pos hjM, getD_append_left _ _ j [] (by rw [hA]; omega),
      getD_zipWith _ _ _ j [] [] _ (by rw [List.length_drop, hr]; omega)
        (by rw [List.length_dropLast, hr]; omega),
      getD_drop, getD_dropLast _ _ _ (by rw [hr]; omega), sub1,
      getD_zipWith _ _ _ c 0 0 _
        (by rw [shape3_chans hS hi (show 1 + j < M by omega)]; exact hc)
        (by rw [shape3_chans hS hi hj]; exact hc)]
    rw [Nat.add_comm 1 j]
  · rw [if_neg hjM, getD_append_right _ _ j [] (by rw [hA]; omega), hA]
    have hj0 : j - (M - 1) = 0 := by omega
    rw [hj0,
      getD_zipWith _ _ _ 0 [] [] _ (by rw [List.length_take, hr]; omega)
        (by rw [List.length_drop, hr]; omega),
      getD_take _ _ _ _ (by omega), getD_drop, sub1,
      getD_zipWith _ _ _ c 0 0 _
        (by rw [shape3_chans hS hi (show 0 < M by omega)]; exact hc)
        (by rw [shape3_chans hS hi (show M - 1 + 0 < M by omega)]; exact hc)]
    have hjq : M - 1 + 0 = j := by omega
    rw [hjq]

theorem shape3_compute_h {S : Img} {N M C : ℕ} (hS : IsShape3 S N M C) :
    IsShape3 (compute_h M S) N M C := by
  simp only [compute_h]
  exact shape3_tAdd3 (shape3_zerosLike hS) (shape3_hdiff hS)

theorem at3_compute_h {S : Img} {N M C : ℕ} (hS : IsShape3 S N M C) {i j c : ℕ}
    (hi : i < N) (hj : j < M) (hc : c < C) :
    at3 (compute_h M S) i j c
      = (if j + 1 < M then at3 S i (j + 1) c else at3 S i 0 c) - at3 S i j c := by
  simp only [compute_h]
  rw [at3_tAdd3 (shape3_zerosLike hS) (shape3_hdiff hS) hi hj hc,
    at3_zerosLike hS hi hj hc, zero_add, at3_hdiff hS hi hj hc]

theorem shape3_vdiff {S : Img} {N M C : ℕ} (hS : IsShape3 S N M C) :
    IsShape3 ((List.zipWith sub2 (S.drop 1) S.dropLast) ++
      (List.zipWith sub2 (S.take 1) (S.drop (N - 1)))) N M C := by
  have hA : (List.zipWith sub2 (S.drop 1) S.dropLast).length = N - 1 := by
    rw [List.length_zipWith, List.length_drop, List.length_dropLast, hS.1, min_self]
  have hB : (List.zipWith sub2 (S.take 1) (S.drop (N - 1))).length
      = min (min 1 N) (N - (N - 1)) := by
    rw [List.length_zipWith, List.length_take, List.length_drop, hS.1]
  constructor
  · rw [List.length_append, hA, hB]; omega
  · intro i hi
    by_cases hiN : i + 1 < N
    · rw [getD_append_left _ _ i [] (by rw [hA]; omega),
        getD_zipWith _ _ _ i [] [] _ (by rw [List.length_drop, hS.1]; omega)
          (by rw [List.length_dropLast, hS.1]; omega),
        getD_drop, getD_dropLast _ _ _ (by rw [hS.1]; omega), sub2]
      constructor
      · rw [List.length_zipWith, shape3_rows hS (show 1 + i < N by omega),
          shape3_rows hS hi, min_self]
      · intro j hj
        rw [getD_zipWith _ _ _ j [] [] _
          (by rw [shape3_rows hS (show 1 + i < N by omega)]; exact hj)
          (by rw [shape3_rows hS hi]; exact hj), sub1,
          List.length_zipWith, shape3_chans hS (show 1 + i < N by omega) hj,
          shape3_chans hS hi hj, min_self]
    · rw [getD_append_right _ _ i [] (by rw [hA]; omega), hA]
      have hi0 : i - (N - 1) = 0 := by omega
      rw [hi0,
        getD_zipWith _ _ _ 0 [] [] _ (by rw [List.length_take, hS.1]; omega)
          (by rw [List.length_drop, hS.1]; omega),
        getD_take _ _ _ _ (by omega), getD_drop, sub2]
      constructor
      · rw [List.length_zipWith, shape3_rows hS (show 0 < N by omega),
          shape3_rows hS (show N - 1 + 0 < N by omega), min_self]
      · intro j hj
        rw [getD_zipWith _ _ _ j [] [] _
          (by rw [shape3_rows hS (show 0 < N by omega)]; exact hj)
          (by rw [shape3_rows hS (show N - 1 + 0 < N by omega)]; exact hj), sub1,
          List.length_zipWith, shape3_chans hS (show 0 < N by omega) hj,
          shape3_chans hS (show N - 1 + 0 < N by omega) hj, min_self]

theorem at3_vdiff {S : Img} {N M C : ℕ} (hS : IsShape3 S N M C) {i j c : ℕ}
    (hi : i < N) (hj : j < M) (hc : c < C) :
    at3 ((List.zipWith sub2 (S.drop 1) S.dropLast) ++
      (List.zipWith sub2 (S.take 1) (S.drop (N - 1)))) i j c
      = (if i + 1 < N then at3 S (i + 1) j c else at3 S 0 j c) - at3 S i j c := by
  have hA : (List.zipWith sub2 (S.drop 1) S.dropLast).length = N - 1 := by
    rw [List.length_zipWith, List.length_drop, List.length_dropLast, hS.1, min_self]
  unfold at3
  by_cases hiN : i + 1 < N
  · rw [if_pos hiN, getD_append_left _ _ i [] (by rw [hA]; omega),
      getD_zipWith _ _ _ i [] [] _ (by rw [List.length_drop, hS.1]; omega)
        (by rw [List.length_dropLast, hS.1]; omega),
      getD_drop, getD_dropLast _ _ _ (by rw [hS.1]; omega), sub2,
      getD_zipWith _ _ _ j [] [] _
        (by rw [shape3_rows hS (show 1 + i < N by omega)]; exact hj)
        (by rw [shape3_rows hS hi]; exact hj), sub1,
      getD_zipWith _ _ _ c 0 0 _
        (by rw [shape3_chans hS (show 1 + i < N by omega) hj]; exact hc)
        (by rw [shape3_chans hS hi hj]; exact hc)]
    rw [Nat.add_comm 1 i]
  · rw [if_neg hiN, getD_append_right _ _ i [] (by rw [hA]; omega), hA]
    have hi0 : i - (N - 1) = 0 := by omega
    rw [hi0,
      getD_zipWith _ _ _ 0 [] [] _ (by rw [List.length_take, hS.1]; omega)
        (by rw [List.length_drop, hS.1]; omega),
      getD_take _ _ _ _ (by omega), getD_drop, sub2,
      getD_zipWith _ _ _ j [] [] _
        (by rw [shape3_rows hS (show 0 < N by omega)]; exact hj)
        (by rw [shape3_rows hS (show N - 1 + 0 < N by omega)]; exact hj), sub1,
      getD_zipWith _ _ _ c 0 0 _
        (by rw [shape3_chans hS (show 0 < N by omega) hj]; exact hc)
        (by rw [shape3_chans hS (show N - 1 + 0 < N by omega) hj]; exact hc)]
    have hiq : N - 1 + 0 = i := by omega
    rw [hiq]

theorem shape3_compute_v {S : Img} {N M C : ℕ} (hS : IsShape3 S N M C) :
    IsShape3 (compute_v N S) N M C := by
  simp only [compute_v]
  exact shape3_tAdd3 (shape3_zerosLike hS) (shape3_vdiff hS)

theorem at3_compute_v {S : Img} {N M C : ℕ} (hS : IsShape3 S N M C) {i j c : ℕ}
    (hi : i < N) (hj : j < M) (hc : c < C) :
    at3 (compute_v N S) i j c
      = (if i + 1 < N then at3 S (i + 1) j c else at3 S 0 j c) - at3 S i j c := by
  simp only [compute_v]
  rw [at3_tAdd3 (shape3_zerosLike hS) (shape3_vdiff hS) hi hj hc,
    at3_zerosLike hS hi hj hc, zero_add, at3_vdiff hS hi hj hc]

theorem shape3_tpow2 {x : Img} {N M C : ℕ} (hx : IsShape3 x N M C) :
    IsShape3 (tpow2 x) N M C := by
  constructor
  · rw [tpow2, List.length_map, hx.1]
  · intro i hi
    rw [tpow2, getD_map _ x i [] _ (by rw [hx.1]; exact hi)]
    constructor
    · rw [List.length_map, shape3_rows hx hi]
    · intro j hj
      rw [getD_map _ _ j [] _ (by rw [shape3_rows hx hi]; exact hj),
        List.length_map, shape3_chans hx hi hj]

theorem at3_tpow2 {x : Img} {N M C : ℕ} (hx : IsShape3 x N M C) {i j c : ℕ}
    (hi : i < N) (hj : j < M) (hc : c < C) :
    at3 (tpow2 x) i j c = at3 x i j c ^ 2 := by
  unfold at3 tpow2
  rw [getD_map _ x i [] _ (by rw [hx.1]; exact hi),
    getD_map _ _ j [] _ (by rw [shape3_rows hx hi]; exact hj),
    getD_map _ _ c 0 _ (by rw [shape3_chans hx hi hj]; exact hc)]

theorem shape2_grad_t {h v : Img} {N M C : ℕ} (hh : IsShape3 h N M C)
    (hv : IsShape3 v N M C) : IsShape2 (grad_t h v) N M := by
  have hw : IsShape3 (tAdd3 (tpow2 h) (tpow2 v)) N M C :=
    shape3_tAdd3 (shape3_tpow2 hh) (shape3_tpow2 hv)
  constructor
  · rw [grad_t, reduceSum2, List.length_map, hw.1]
  · intro i hi
    rw [grad_t, reduceSum2, getD_map _ _ i [] _ (by rw [hw.1]; exact hi),
      List.length_map, shape3_rows hw hi]

theorem at2_grad_t {h v : Img} {N M C : ℕ} (hh : IsShape3 h N M C)
    (hv : IsShape3 v N M C) {i j : ℕ} (hi : i < N) (hj : j < M) :
    at2 (grad_t h v) i j
      = ((List.range C).map (fun c => at3 h i j c ^ 2 + at3 v i j c ^ 2)).sum := by
  have hw : IsShape3 (tAdd3 (tpow2 h) (tpow2 v)) N M C :=
    shape3_tAdd3 (shape3_tpow2 hh) (shape3_tpow2 hv)
  unfold at2 grad_t reduceSum2
  rw [getD_map _ _ i [] _ (by rw [hw.1]; exact hi),
    getD_map _ _ j [] _ (by rw [shape3_rows hw hi]; exact hj),
    sum_eq_range_getD, shape3_chans hw hi hj]
  refine congrArg List.sum (List.map_congr_left (fun c hcmem => ?_))
  have hc : c < C := List.mem_range.mp hcmem
  have hval : (((tAdd3 (tpow2 h) (tpow2 v)).getD i []).getD j []).getD c 0
      = at3 (tAdd3 (tpow2 h) (tpow2 v)) i j c := rfl
  rw [hval, at3_tAdd3 (shape3_tpow2 hh) (shape3_tpow2 hv) hi hj hc,
    at3_tpow2 hh hi hj hc, at3_tpow2 hv hi hj hc]

theorem buildMask_ok {t : List (List ℚ)} {thr : ℚ} {mask : List (List Bool)}
    (h : buildMask t thr = .ok mask) :
    mask = t.map (fun row => row.map (fun x => if x < thr then true else false)) := by
  unfold buildMask at h
  split at h
  · exact absurd h (by simp)
  · simpa using h.symm

theorem shape2_ltMask {t : List (List ℚ)} {N M : ℕ} (ht : IsShape2 t N M)
    (thr : ℚ) :
    IsShape2 (t.map (fun row => row.map
      (fun x => if x < thr then true else false))) N M := by
  constructor
  · rw [List.length_map, ht.1]
  · intro i hi
    rw [getD_map _ t i [] _ (by rw [ht.1]; exact hi), List.length_map, ht.2 i hi]

theorem atB_ltMask {t : List (List ℚ)} {N M : ℕ} (ht : IsShape2 t N M)
    (thr : ℚ) {i j : ℕ} (hi : i < N) (hj : j < M) :
    atB (t.map (fun row => row.map
      (fun x => if x < thr then true else false))) i j
      = if at2 t i j < thr then true else false := by
  unfold atB at2
  rw [getD_map _ t i [] _ (by rw [ht.1]; exact hi),
    getD_map _ _ j 0 _ (by rw [ht.2 i hi]; exact hj)]

theorem shape3_maskStep {mask : List (List Bool)} {x : Img} {N M C : ℕ}
    (hm : IsShape2 mask N M) (hx : IsShape3 x N M C) :
    IsShape3 (maskStep C mask x) N M C := by
  unfold maskStep applyMask3 tileMask
  constructor
  · rw [List.length_zipWith, List.length_map, hm.1, hx.1, min_self]
  · intro i hi
    rw [getD_zipWith _ _ _ i [] [] _ (by rw [List.length_map, hm.1]; exact hi)
      (by rw [hx.1]; exact hi),
      getD_map _ mask i [] _ (by rw [hm.1]; exact hi)]
    constructor
    · rw [List.length_zipWith, List.length_map, hm.2 i hi, shape3_rows hx hi,
        min_self]
    · intro j hj
      rw [getD_zipWith _ _ _ j [] [] _ (by rw [List.length_map, hm.2 i hi]; exact hj)
        (by rw [shape3_rows hx hi]; exact hj),
        getD_map _ _ j false _ (by rw [hm.2 i hi]; exact hj),
        List.length_zipWith, List.length_replicate, shape3_chans hx hi hj,
        min_self]

theorem at3_maskStep {mask : List (List Bool)} {x : Img} {N M C : ℕ}
    (hm : IsShape2 mask N M) (hx : IsShape3 x N M C) {i j c : ℕ}
    (hi : i < N) (hj : j < M) (hc : c < C) :
    at3 (maskStep C mask x) i j c
      = if atB mask i j then 0 else at3 x i j c := by
  unfold maskStep applyMask3 tileMask at3 atB
  rw [getD_zipWith _ _ _ i [] [] _ (by rw [List.length_map, hm.1]; exact hi)
      (by rw [hx.1]; exact hi),
    getD_map _ mask i [] _ (by rw [hm.1]; exact hi),
    getD_zipWith _ _ _ j [] [] _ (by rw [List.length_map, hm.2 i hi]; exact hj)
      (by rw [shape3_rows hx hi]; exact hj),
    getD_map _ _ j false _ (by rw [hm.2 i hi]; exact hj),
    getD_zipWith _ _ _ c false 0 _ (by rw [List.length_replicate]; exact hc)
      (by rw [shape3_chans hx hi hj]; exact hc),
    getD_replicate _ _ _ _ hc]

/-- Any successful loop iteration leaves `S` untouched and sets `beta` to
`beta_max` — the two observable effects of the (unfinished) Python body. -/
theorem loopBody_ok {lam bmax : ℚ} {N M C : ℕ} {st st2 : LoopSt}
    (h : loopBody lam bmax N M C st = .ok st2) : st2 = ⟨st.S, bmax⟩ := by
  unfold loopBody at h
  dsimp only at h
  split at h
  · exact absurd h (by simp)
  · simpa using h.symm

/-- The fuelled loop never needs more than 2 units of fuel: a successful
body ends with `beta = beta_max`, falsifying the loop guard. -/
theorem runLoop_fuel_two_suffices (lam bmax : ℚ) (N M C : ℕ) (fuel : ℕ)
    (hf : 2 ≤ fuel) (st : LoopSt) (count : ℕ) :
    runLoop lam bmax N M C fuel st count = runLoop lam bmax N M C 2 st count := by
  obtain ⟨f, rfl⟩ : ∃ f, fuel = f + 2 := ⟨fuel - 2, by omega⟩
  show runLoop lam bmax N M C (f + 1 + 1) st count
      = runLoop lam bmax N M C (1 + 1) st count
  simp only [runLoop]
  split
  · cases hb : loopBody lam bmax N M C st with
    | error e => rfl
    | ok st2 =>
      have hst2 : st2 = ⟨st.S, bmax⟩ := loopBody_ok hb
      subst hst2
      show runLoop lam bmax N M C (f + 1) ⟨st.S, bmax⟩ (count + 1)
          = runLoop lam bmax N M C (0 + 1) ⟨st.S, bmax⟩ (count + 1)
      simp only [runLoop]
      have hneg : ¬ ((LoopSt.mk st.S bmax).beta < bmax) := lt_irrefl bmax
      rw [if_neg hneg, if_neg hneg]
  · rfl

/-- When the loop is entered (`β₀ < β_max`) and the single body run
succeeds, the whole loop performs exactly one iteration and stops with
`beta = beta_max` and `S` unchanged — whatever `fuel ≥ 2`, `λ` and the
(nowhere-read) `κ` are. -/
theorem runLoop_single_iteration (lam bmax : ℚ) (N M C : ℕ) (fuel : ℕ)
    (hf : 2 ≤ fuel) (st st2 : LoopSt) (henter : st.beta < bmax)
    (hb : loopBody lam bmax N M C st = .ok st2) :
    runLoop lam bmax N M C fuel st 0 = .ok (⟨st.S, bmax⟩, 1) := by
  rw [runLoop_fuel_two_suffices lam bmax N M C fuel hf st 0]
  show runLoop lam bmax N M C (1 + 1) st 0 = .ok (⟨st.S, bmax⟩, 1)
  simp only [runLoop]
  rw [if_pos henter, hb]
  have hst2 : st2 = ⟨st.S, bmax⟩ := loopBody_ok hb
  subst hst2
  show runLoop lam bmax N M C (0 + 1) ⟨st.S, bmax⟩ (0 + 1) = .ok (⟨st.S, bmax⟩, 1)
  simp only [runLoop]
  rw [if_neg (show ¬ ((LoopSt.mk st.S bmax).beta < bmax) from lt_irrefl bmax)]

/-! ### Evaluation lemmas shared by the concrete runs -/

theorem eval_otf_fx_22 :
    fxypsf_to_otf (1 : ℚ) 1 [[1, -1]] 2 2 = .ok [[0, 0], [0, 0]] := by
  have h1 : zero_pad_fxypsf ([[1, -1]] : List (List ℚ)) 2 2
      = .ok [[1, -1], [0, 0]] := by
    norm_num [zero_pad_fxypsf, sparseToDense, List.range_succ]
  simp only [fxypsf_to_otf, h1, List.length_cons, List.length_nil, List.headD]
  have hf1 : Int.fdiv (-(1 : ℤ)) 2 = -1 := by decide
  have hf2 : Int.fdiv (-(2 : ℤ)) 2 = -1 := by decide
  norm_num [hf1, hf2, rollList, dft2, List.range_succ]

theorem eval_otf_fy_22 :
    fxypsf_to_otf (1 : ℚ) 1 [[1], [-1]] 2 2 = .ok [[0, 0], [0, 0]] := by
  have h1 : zero_pad_fxypsf ([[1], [-1]] : List (List ℚ)) 2 2
      = .ok [[1, 0], [-1, 0]] := by
    norm_num [zero_pad_fxypsf, sparseToDense, List.range_succ]
  simp only [fxypsf_to_otf, h1, List.length_cons, List.length_nil, List.headD]
  have hf1 : Int.fdiv (-(1 : ℤ)) 2 = -1 := by decide
  have hf2 : Int.fdiv (-(2 : ℤ)) 2 = -1 := by decide
  norm_num [hf1, hf2, rollList, dft2, List.range_succ]

/-- A kernel with neither 1 nor 2 rows: both branches of
`_zero_pad_fxypsf` are skipped and the bare `return psf_padded` raises
`UnboundLocalError`. -/
theorem zero_pad_other_rows {R : Type} [CommRing R] (psf : List (List R))
    (H W : ℕ) (h1 : psf.length ≠ 1) (h2 : psf.length ≠ 2) :
    zero_pad_fxypsf psf H W = .error .unboundLocal := by
  unfold zero_pad_fxypsf
  rw [if_neg h1, if_neg h2]

/-- A 1-row kernel whose row does not have exactly 2 entries: the
`SparseTensor` length assertion (`len(values) == len(indices)`) fails. -/
theorem zero_pad_one_row {R : Type} [CommRing R] (r : List R) (H W : ℕ)
    (hr : r.length ≠ 2) :
    zero_pad_fxypsf [r] H W = .error .sparseShapeMismatch := by
  unfold zero_pad_fxypsf sparseToDense
  rw [if_pos (by simp)]
  simp only [List.headD, List.length_cons, List.length_nil]
  rw [if_neg (by simpa using hr)]

/-- Any 2-row kernel with nonempty rows is accepted by `_zero_pad_fxypsf`
(only the first column is read), provided the target has at least 2 rows
and 1 column. -/
theorem zero_pad_two_rows {R : Type} [CommRing R] (r s : List R) (H W : ℕ)
    (h1 : 1 ≤ r.length) (h2 : 1 ≤ s.length) (hH : 2 ≤ H) (hW : 1 ≤ W) :
    ∃ out, zero_pad_fxypsf [r, s] H W = .ok out := by
  unfold zero_pad_fxypsf sparseToDense
  rw [if_neg (by simp), if_pos (by simp),
    if_pos (by intro q hq; simp at hq; rcases hq with h | h <;> simp [h, h1, h2]),
    if_pos (by simp), if_pos (by intro p hp; simp at hp; rcases hp with h | h <;>
      simp [h] <;> omega)]
  exact ⟨_, rfl⟩

/-- C4 (code bug): for the `(1, 2)` kernel `[1, -1]` and target shape
`(2, 2)`, the converter does *not* roll by `-floor(l/2)` per axis (which
would be `(0, -1)` here): Python's `-axis_sz // 2` is `floor(-axis_sz / 2)`,
which is `-1` even for a length-1 axis.  The kernel is thus rolled off its
row: the embedded-and-code-rolled array is `[[0, 0], [-1, 1]]`, whereas the
claimed roll produces `[[-1, 1], [0, 0]]`, and the two DFTs differ (entry
`(1, 1)` is `2` under the code but `-2` under the claim; the exact
primitive root for both axes of length 2 is `-1`). -/
theorem c4_otf_roll_shift_mismatch :
    fxypsf_to_otf (-1 : ℚ) (-1) [[1, -1]] 2 2 = .ok (dft2 (-1 : ℚ) (-1) [[0, 0], [-1, 1]]) ∧
    dft2 (-1 : ℚ) (-1) [[0, 0], [-1, 1]] = [[0, -2], [0, 2]] ∧
    dft2 (-1 : ℚ) (-1) [[-1, 1], [0, 0]] = [[0, -2], [0, -2]] ∧
    decide (([[0, -2], [0, 2]] : List (List ℚ)) = [[0, -2], [0, -2]]) = false := by
  refine ⟨?_, ?_, ?_, by rfl⟩
  · have h1 : zero_pad_fxypsf ([[1, -1]] : List (List ℚ)) 2 2
        = .ok [[1, -1], [0, 0]] := by
      norm_num [zero_pad_fxypsf, sparseToDense, List.range_succ]
    simp only [fxypsf_to_otf, h1, List.length_cons, List.length_nil, List.headD]
    have hf1 : Int.fdiv (-(1 : ℤ)) 2 = -1 := by decide
    have hf2 : Int.fdiv (-(2 : ℤ)) 2 = -1 := by decide
    norm_num [hf1, hf2, rollList, List.range_succ]
  · norm_num [dft2, List.range_succ]
  · norm_num [dft2, List.range_succ]

/-- C9 counterexample: a kernel of shape `(2, 2)` — neither `(1, 2)` nor
`(2, 1)` — is *accepted* by the converter (its second column `[7, 9]` is
silently ignored; only the first column `[5, 3]` is embedded), refuting
"fails on every shape other than the two supported ones". -/
theorem c9_two_column_kernel_accepted :
    fxypsf_to_otf (-1 : ℚ) (-1) [[5, 7], [3, 9]] 2 2 = .ok [[8, -8], [-2, 2]] := by
  have h1 : zero_pad_fxypsf ([[5, 7], [3, 9]] : List (List ℚ)) 2 2
      = .ok [[5, 0], [3, 0]] := by
    norm_num [zero_pad_fxypsf, sparseToDense, List.range_succ]
  simp only [fxypsf_to_otf, h1, List.length_cons, List.length_nil, List.headD]
  have hf2 : Int.fdiv (-(2 : ℤ)) 2 = -1 := by decide
  norm_num [hf2, rollList, dft2, List.range_succ]

/-- C9 (amended): against a target of spatial shape at least `2 × 2`, the
converter fails with `UnboundLocalError` for kernels whose row count is
neither 1 nor 2, and with the `SparseTensor` length assertion for 1-row
kernels whose row does not have exactly 2 entries; but every 2-row kernel
with nonempty rows *succeeds* (only its first column is used), so the
converter does not succeed exactly on the shapes `(1, 2)` and `(2, 1)`. -/
theorem c9_kernel_shape_amended (w1 w2 : ℚ) (psf : List (List ℚ)) (H W : ℕ)
    (hH : 2 ≤ H) (hW : 2 ≤ W) :
    (psf.length ≠ 1 → psf.length ≠ 2 →
      fxypsf_to_otf w1 w2 psf H W = .error .unboundLocal) ∧
    (∀ r, psf = [r] → r.length ≠ 2 →
      fxypsf_to_otf w1 w2 psf H W = .error .sparseShapeMismatch) ∧
    (∀ r s, psf = [r, s] → 1 ≤ r.length → 1 ≤ s.length →
      ∃ out, fxypsf_to_otf w1 w2 psf H W = .ok out) := by
  refine ⟨fun h1 h2 => ?_, fun r hr hlen => ?_, fun r s hrs h1 h2 => ?_⟩
  · simp only [fxypsf_to_otf, zero_pad_other_rows psf H W h1 h2]
  · subst hr
    simp only [fxypsf_to_otf, zero_pad_one_row r H W hlen]
  · subst hrs
    obtain ⟨out0, hout0⟩ := zero_pad_two_rows r s H W h1 h2 hH (by omega)
    simp only [fxypsf_to_otf, hout0]
    exact ⟨_, rfl⟩

/-- Witness for `c9_kernel_shape_amended` at concrete inputs: a 3-row
kernel raises `UnboundLocalError`, and the `(2, 2)` kernel of the
counterexample is accepted. -/
theorem c9_kernel_shape_amended_witness :
    fxypsf_to_otf (1 : ℚ) 1 [[3], [4], [5]] 2 2 = .error .unboundLocal ∧
    ∃ out, fxypsf_to_otf (1 : ℚ) 1 [[5, 7], [3, 9]] 2 2 = .ok out :=
  ⟨(c9_kernel_shape_amended 1 1 [[3], [4], [5]] 2 2 (le_refl 2) (le_refl 2)).1
      (by norm_num) (by norm_num),
    (c9_kernel_shape_amended 1 1 [[5, 7], [3, 9]] 2 2 (le_refl 2) (le_refl 2)).2.2
      [5, 7] [3, 9] rfl (by norm_num) (by norm_num)⟩

/-- C6 (confirmed): before thresholding, `h` and `v` are the circular
forward differences of the current `S`: `h[i, j, c] = S[i, j+1, c] -
S[i, j, c]` for `j < M-1` wrapping to `S[i, 0, c] - S[i, M-1, c]` at the
last column, `v[i, j, c] = S[i+1, j, c] - S[i, j, c]` for `i < N-1`
wrapping to `S[0, j, c] - S[N-1, j, c]` at the last row, and both have
shape `(N, M, C)`. -/
theorem c6_circular_forward_differences (S : Img) (N M C : ℕ)
    (hS : IsShape3 S N M C) :
    IsShape3 (compute_h M S) N M C ∧ IsShape3 (compute_v N S) N M C ∧
    (∀ i j c, i < N → j < M → c < C →
      (j + 1 < M → at3 (compute_h M S) i j c = at3 S i (j + 1) c - at3 S i j c) ∧
      (j + 1 = M → at3 (compute_h M S) i j c = at3 S i 0 c - at3 S i j c)) ∧
    (∀ i j c, i < N → j < M → c < C →
      (i + 1 < N → at3 (compute_v N S) i j c = at3 S (i + 1) j c - at3 S i j c) ∧
      (i + 1 = N → at3 (compute_v N S) i j c = at3 S 0 j c - at3 S i j c)) := by
  refine ⟨shape3_compute_h hS, shape3_compute_v hS,
    fun i j c hi hj hc => ⟨fun hlt => ?_, fun heq => ?_⟩,
    fun i j c hi hj hc => ⟨fun hlt => ?_, fun heq => ?_⟩⟩
  · rw [at3_compute_h hS hi hj hc, if_pos hlt]
  · rw [at3_compute_h hS hi hj hc, if_neg (by omega)]
  · rw [at3_compute_v hS hi hj hc, if_pos hlt]
  · rw [at3_compute_v hS hi hj hc, if_neg (by omega)]

/-- Witness for `c6_circular_forward_differences` on the concrete
`2 × 2 × 1` image `[[[1], [2]], [[3], [5]]]`: the wrap column of `h` and an
interior row of `v`. -/
theorem c6_circular_forward_differences_witness :
    at3 (compute_h 2 [[[1], [2]], [[3], [5]]]) 0 1 0
      = at3 [[[1], [2]], [[3], [5]]] 0 0 0 - at3 [[[1], [2]], [[3], [5]]] 0 1 0 ∧
    at3 (compute_v 2 [[[1], [2]], [[3], [5]]]) 0 0 0
      = at3 [[[1], [2]], [[3], [5]]] 1 0 0 - at3 [[[1], [2]], [[3], [5]]] 0 0 0 :=
  ⟨((c6_circular_forward_differences [[[1], [2]], [[3], [5]]] 2 2 1
      (by decide)).2.2.1 0 1 0 (by decide) (by decide) (by decide)).2 (by decide),
    ((c6_circular_forward_differences [[[1], [2]], [[3], [5]]] 2 2 1
      (by decide)).2.2.2 0 0 0 (by decide) (by decide) (by decide)).1 (by decide)⟩

/-- C5 (confirmed): in an iteration whose mask construction succeeds, the
gradient subproblem is an exact hard threshold: `t[i, j]` is the sum over
channels of `h² + v²`; wherever `t[i, j] < λ/β` the masked `h` and `v`
vanish in every channel, and wherever `t[i, j] ≥ λ/β` they are exactly the
unmodified finite differences. -/
theorem c5_gradient_hard_threshold (S : Img) (N M C : ℕ) (lam beta : ℚ)
    (mask : List (List Bool)) (hS : IsShape3 S N M C)
    (hmask : buildMask (grad_t (compute_h M S) (compute_v N S)) (lam / beta)
      = .ok mask)
    (i j c : ℕ) (hi : i < N) (hj : j < M) (hc : c < C) :
    at2 (grad_t (compute_h M S) (compute_v N S)) i j
      = ((List.range C).map (fun cc =>
          at3 (compute_h M S) i j cc ^ 2 + at3 (compute_v N S) i j cc ^ 2)).sum ∧
    (at2 (grad_t (compute_h M S) (compute_v N S)) i j < lam / beta →
      at3 (maskStep C mask (compute_h M S)) i j c = 0 ∧
      at3 (maskStep C mask (compute_v N S)) i j c = 0) ∧
    (lam / beta ≤ at2 (grad_t (compute_h M S) (compute_v N S)) i j →
      at3 (maskStep C mask (compute_h M S)) i j c = at3 (compute_h M S) i j c ∧
      at3 (maskStep C mask (compute_v N S)) i j c = at3 (compute_v N S) i j c) := by
  have hh := shape3_compute_h hS
  have hv := shape3_compute_v hS
  have ht : IsShape2 (grad_t (compute_h M S) (compute_v N S)) N M :=
    shape2_grad_t hh hv
  have hmeq := buildMask_ok hmask
  have hm2 : IsShape2 mask N M := by
    rw [hmeq]; exact shape2_ltMask ht _
  have hab : atB mask i j
      = if at2 (grad_t (compute_h M S) (compute_v N S)) i j < lam / beta
        then true else false := by
    rw [hmeq]; exact atB_ltMask ht _ hi hj
  refine ⟨at2_grad_t hh hv hi hj, fun hlt => ?_, fun hge => ?_⟩
  · have hbtrue : atB mask i j = true := by rw [hab]; exact if_pos hlt
    constructor
    · rw [at3_maskStep hm2 hh hi hj hc, hbtrue]; rfl
    · rw [at3_maskStep hm2 hv hi hj hc, hbtrue]; rfl
  · have hbfalse : atB mask i j = false := by
      rw [hab]; exact if_neg (not_lt.mpr hge)
    constructor
    · rw [at3_maskStep hm2 hh hi hj hc, hbfalse]; rfl
    · rw [at3_maskStep hm2 hv hi hj hc, hbfalse]; rfl

/-- Witness for `c5_gradient_hard_threshold` on the flat `1 × 1 × 1` image
`[[[0]]]` with `λ = 1`, `β = 2` (threshold `1/2`): its zero gradient is
below the threshold, so the masked `h` vanishes. -/
theorem c5_gradient_hard_threshold_witness :
    at3 (maskStep 1 [[true]] (compute_h 1 [[[0]]])) 0 0 0 = 0 :=
  ((c5_gradient_hard_threshold [[[0]]] 1 1 1 1 2 [[true]] (by decide)
    (by norm_num [buildMask, grad_t, compute_h, compute_v, tAdd3, zerosLike,
      tpow2, reduceSum2, sub1, sub2])
    0 0 0 (by decide) (by decide) (by decide)).2.1
    (by norm_num [grad_t, compute_h, compute_v, tAdd3, zerosLike,
      tpow2, reduceSum2, sub1, sub2, at2])).1

/-- C2 (code bug): no iteration ever replaces `S` — the frequency-domain
image subproblem (`S_new = IFFT2D((img_fft + β·FFT2D(numer2)) / (1 +
β·denom2))`, real part, per channel, then `S ← S_new`) is absent from the
source; `numer2` (and `denom`) are computed and discarded, and every
successful loop body returns `S` unchanged. -/
theorem c2_loop_never_updates_S (lam bmax : ℚ) (N M C : ℕ) (st st2 : LoopSt)
    (h : loopBody lam bmax N M C st = .ok st2) : st2.S = st.S := by
  rw [loopBody_ok h]

/-- Witness for `c2_loop_never_updates_S`: a full concrete loop body on a
`1 × 1 × 1` image returns the state with the same `S`. -/
theorem c2_loop_never_updates_S_witness :
    (LoopSt.mk [[[0]]] 100).S = (LoopSt.mk [[[0]]] 2).S :=
  c2_loop_never_updates_S 1 100 1 1 1 ⟨[[[0]]], 2⟩ ⟨[[[0]]], 100⟩
    (by norm_num [loopBody, buildMask, grad_t, compute_h, compute_v, tAdd3,
      zerosLike, tpow2, reduceSum2, sub1, sub2, maskStep, applyMask3, tileMask,
      compute_numer2])

/-- C3 (code bug): with the default parameters `λ = 1/50`, `κ = 2`,
`β_max = 10^5` (so `β₀ = 1/25 < β_max`), the loop of the source performs
exactly **one** iteration and exits with `β = β_max` — the final statement
of the body is `beta = beta_max`, not `beta = beta * kappa` (`kappa` is
never read) — whereas the claimed schedule `β_{i+1} = β_i·κ` would run
`ceil(log_2(10^5 / (2/50))) = 22` iterations (`specIterCount`, the least
`n` with `2λκⁿ ≥ β_max`, evaluates to 22 here). -/
theorem c3_beta_schedule_single_iteration :
    runLoop (1/50) 100000 2 2 1 2 ⟨[[[0], [0]], [[0], [0]]], 2 * (1/50)⟩ 0
      = .ok (⟨[[[0], [0]], [[0], [0]]], 100000⟩, 1) ∧
    specIterCount (1/50) 2 100000 ⟨22, by norm_num⟩ = 22 := by
  constructor
  · have hbody : loopBody (1/50) 100000 2 2 1 ⟨[[[0], [0]], [[0], [0]]], 2 * (1/50)⟩
        = .ok ⟨[[[0], [0]], [[0], [0]]], 100000⟩ := by
      norm_num [loopBody, buildMask, grad_t, compute_h, compute_v, tAdd3,
        zerosLike, tpow2, reduceSum2, sub1, sub2, maskStep, applyMask3, tileMask,
        compute_numer2]
    exact runLoop_single_iteration _ _ _ _ _ _ (le_refl 2) _ _ (by norm_num) hbody
  · rw [specIterCount, Nat.find_eq_iff]
    constructor
    · norm_num
    · intro n hn
      interval_cases n <;> norm_num

/-- C1 (code bug): `l0_image_smoothing` never returns a smoothed image.
The function body ends with a bare `return` (Python `None`): on the valid
`2 × 2 × 1` zero image with the default parameters the run completes and
yields `none`, and in general every execution path ends in `none` or an
exception — no path produces an `(H, W, C)` image with samples in
`[0, 1]`. -/
theorem c1_smoothing_returns_none :
    l0_image_smoothing ⟨[2, 2, 1], fun _ _ _ => 0⟩ (1/50) 2 100000 = .ok none ∧
    ∀ (a : PyArray) (lam kappa bmax : ℚ),
      l0_image_smoothing a lam kappa bmax = .ok none ∨
      ∃ e, l0_image_smoothing a lam kappa bmax = .error e := by
  constructor
  · have htoImg : toImg ⟨[2, 2, 1], fun _ _ _ => 0⟩ 2 2 1
        = [[[0], [0]], [[0], [0]]] := by
      norm_num [toImg, List.range_succ]
    have hS0 : ([[[(0 : ℚ)], [0]], [[0], [0]]] : Img).map
        (fun r => r.map (fun ch => ch.map (fun x => x / 255)))
        = [[[0], [0]], [[0], [0]]] := by norm_num
    have hbody : loopBody (1/50) 100000 2 2 1 ⟨[[[0], [0]], [[0], [0]]], 2 * (1/50)⟩
        = .ok ⟨[[[0], [0]], [[0], [0]]], 100000⟩ := by
      norm_num [loopBody, buildMask, grad_t, compute_h, compute_v, tAdd3,
        zerosLike, tpow2, reduceSum2, sub1, sub2, maskStep, applyMask3, tileMask,
        compute_numer2]
    have hrun : runLoop (1/50) 100000 2 2 1 2 ⟨[[[0], [0]], [[0], [0]]], 2 * (1/50)⟩ 0
        = .ok (⟨[[[0], [0]], [[0], [0]]], 100000⟩, 1) :=
      runLoop_single_iteration _ _ _ _ _ _ (le_refl 2) _ _ (by norm_num) hbody
    simp only [l0_image_smoothing, htoImg, hS0, eval_otf_fx_22, eval_otf_fy_22, hrun]
  · intro a lam kappa bmax
    rcases hsh : a.shape with _ | ⟨x, _ | ⟨y, _ | ⟨z, _ | ⟨w, l⟩⟩⟩⟩
    · simp only [l0_image_smoothing, hsh]; right; exact ⟨_, rfl⟩
    · simp only [l0_image_smoothing, hsh]; right; exact ⟨_, rfl⟩
    · simp only [l0_image_smoothing, hsh]; right; exact ⟨_, rfl⟩
    · simp only [l0_image_smoothing, hsh]
      cases hfx : fxypsf_to_otf (1 : ℚ) 1 [[1, -1]] x y with
      | error e => simp only [hfx]; right; exact ⟨_, rfl⟩
      | ok o1 =>
        simp only [hfx]
        cases hfy : fxypsf_to_otf (1 : ℚ) 1 [[1], [-1]] x y with
        | error e => simp only [hfy]; right; exact ⟨_, rfl⟩
        | ok o2 =>
          simp only [hfy]
          cases hrun : runLoop lam bmax x y z 2
              ⟨(toImg a x y z).map (fun r => r.map (fun ch => ch.map
                (fun q => q / 255))), 2 * lam⟩ 0 with
          | error e => simp only [hrun]; right; exact ⟨_, rfl⟩
          | ok p => left; rfl
    · simp only [l0_image_smoothing, hsh]; right; exact ⟨_, rfl⟩

/-- C7 (code bug): `numer1 = tf.signal.fft2d(img_tensor)` transforms the
*inner-most two* axes of the `(N, M, C)` tensor — i.e. each `(M, C)` slice
(width paired with channels) — not the spatial `(H, W)` axes of each
channel as the spec states.  On the `2 × 2 × 1` image with a single 1 at
pixel `(1, 0)` the two differ (exact roots: `-1` for length-2 axes, `1`
for the length-1 channel axis); moreover the value is computed once and
then never used, since the loop's image subproblem is absent. -/
theorem c7_fft_axes_mismatch :
    numer1_model (-1 : ℚ) 1 [[[0], [0]], [[1], [0]]] = [[[0], [0]], [[1], [1]]] ∧
    fft2_per_channel_spec (-1 : ℚ) (-1) [[[0], [0]], [[1], [0]]]
      = [[[1], [1]], [[-1], [-1]]] ∧
    decide (([[[(0 : ℚ)], [0]], [[1], [1]]] : Img) = [[[1], [1]], [[-1], [-1]]])
      = false := by
  refine ⟨?_, ?_, by rfl⟩
  · simp only [numer1_model, dft2, List.headD, List.length_cons, List.length_nil,
      List.map_cons, List.map_nil]
    norm_num [List.range_succ]
  · simp only [fft2_per_channel_spec, List.headD, List.length_cons,
      List.length_nil]
    norm_num [List.range_succ]

/-- C8 counterexample: the `2 × 2 × 0` input — a 3-D array with a
zero-length channel dimension — is *not* rejected: the whole run completes
without any error (the loop body operates on empty channel lists and the
all-true mask over the zero `t` keeps the sparse index list nonempty),
refuting "fails fast with an InvalidImage condition before entering the
loop" for zero-size dimensions. -/
theorem c8_zero_channel_dimension_not_rejected :
    l0_image_smoothing ⟨[2, 2, 0], fun _ _ _ => 0⟩ (1/50) 2 100000 = .ok none := by
  have htoImg : toImg ⟨[2, 2, 0], fun _ _ _ => 0⟩ 2 2 0 = [[[], []], [[], []]] := by
    norm_num [toImg, List.range_succ]
  have hS0 : ([[([] : List ℚ), []], [[], []]] : Img).map
      (fun r => r.map (fun ch => ch.map (fun x => x / 255)))
      = [[[], []], [[], []]] := by norm_num
  have hbody : loopBody (1/50) 100000 2 2 0 ⟨[[[], []], [[], []]], 2 * (1/50)⟩
      = .ok ⟨[[[], []], [[], []]], 100000⟩ := by
    norm_num [loopBody, buildMask, grad_t, compute_h, compute_v, tAdd3,
      zerosLike, tpow2, reduceSum2, sub1, sub2, maskStep, applyMask3, tileMask,
      compute_numer2]
  have hrun : runLoop (1/50) 100000 2 2 0 2 ⟨[[[], []], [[], []]], 2 * (1/50)⟩ 0
      = .ok (⟨[[[], []], [[], []]], 100000⟩, 1) :=
    runLoop_single_iteration _ _ _ _ _ _ (le_refl 2) _ _ (by norm_num) hbody
  simp only [l0_image_smoothing, htoImg, hS0, eval_otf_fx_22, eval_otf_fy_22, hrun]

/-- C8 (amended): a non-3-D input fails before the loop with the tuple
unpacking `ValueError`, and a 3-D input whose first or second dimension is
zero fails before the loop with the sparse index-validation error raised
while building the first OTF — but these are incidental Python/TensorFlow
exceptions, and (per the counterexample) a zero-length *channel* dimension
is not rejected at all. -/
theorem c8_failfast_amended (a : PyArray) (lam kappa bmax : ℚ) :
    (a.shape.length ≠ 3 →
      l0_image_smoothing a lam kappa bmax = .error .valueErrorUnpack) ∧
    (∀ N M C, a.shape = [N, M, C] → N = 0 ∨ M = 0 →
      l0_image_smoothing a lam kappa bmax = .error .sparseIndexOOB) := by
  constructor
  · intro hlen
    rcases hsh : a.shape with _ | ⟨x, _ | ⟨y, _ | ⟨z, _ | ⟨w, l⟩⟩⟩⟩
    · simp only [l0_image_smoothing, hsh]
    · simp only [l0_image_smoothing, hsh]
    · simp only [l0_image_smoothing, hsh]
    · exact absurd (by rw [hsh]; rfl) hlen
    · simp only [l0_image_smoothing, hsh]
  · intro N M C hsh hNM
    have hpad : zero_pad_fxypsf ([[1, -1]] : List (List ℚ)) N M
        = .error .sparseIndexOOB := by
      unfold zero_pad_fxypsf sparseToDense
      rw [if_pos (show ([[(1 : ℚ), -1]] : List (List ℚ)).length = 1 from rfl),
        if_pos (show (([[(1 : ℚ), -1]] : List (List ℚ)).headD []).length
          = [((0 : ℕ), (0 : ℕ)), (0, 1)].length from rfl),
        if_neg ?_]
      intro hall
      rcases hNM with h0 | h0
      · exact absurd ((hall (0, 0) (by simp)).1) (by omega)
      · exact absurd ((hall (0, 1) (by simp)).2) (by omega)
    have hotf : fxypsf_to_otf (1 : ℚ) 1 [[1, -1]] N M = .error .sparseIndexOOB := by
      simp only [fxypsf_to_otf, hpad]
    simp only [l0_image_smoothing, hsh, hotf]

/-- Witness for `c8_failfast_amended`: a 2-D shape raises the unpacking
error; a zero first dimension raises the sparse index error. -/
theorem c8_failfast_amended_witness :
    l0_image_smoothing ⟨[2, 2], fun _ _ _ => 0⟩ 1 2 100 = .error .valueErrorUnpack ∧
    l0_image_smoothing ⟨[0, 2, 1], fun _ _ _ => 0⟩ 1 2 100 = .error .sparseIndexOOB :=
  ⟨(c8_failfast_amended ⟨[2, 2], fun _ _ _ => 0⟩ 1 2 100).1 (by decide),
    (c8_failfast_amended ⟨[0, 2, 1], fun _ _ _ => 0⟩ 1 2 100).2 0 2 1 rfl
      (Or.inl rfl)⟩

/-- C10 (code bug): when *no* pixel satisfies `t < λ/β` the masking step
does not complete: `tf.where` yields an empty index list and
`tf.SparseTensor` rejects it (rank-1 empty indices), so the run raises
instead of leaving `h`, `v` unthresholded.  Concretely, the `2 × 2 × 1`
column-step image `[[0, 255], [0, 255]]` has `t = 1 ≥ 1/2 = λ/β` at every
pixel on the first iteration with default parameters. -/
theorem c10_empty_threshold_mask_raises :
    l0_image_smoothing ⟨[2, 2, 1], fun _ j _ => if j = 0 then 0 else 255⟩
      (1/50) 2 100000 = .error .sparseEmptyIndices := by
  have htoImg : toImg ⟨[2, 2, 1], fun _ j _ => if j = 0 then 0 else 255⟩ 2 2 1
      = [[[0], [255]], [[0], [255]]] := by
    norm_num [toImg, List.range_succ]
  have hS0 : ([[[(0 : ℚ)], [255]], [[0], [255]]] : Img).map
      (fun r => r.map (fun ch => ch.map (fun x => x / 255)))
      = [[[0], [1]], [[0], [1]]] := by norm_num
  have hbody : loopBody (1/50) 100000 2 2 1 ⟨[[[0], [1]], [[0], [1]]], 2 * (1/50)⟩
      = .error .sparseEmptyIndices := by
    norm_num [loopBody, buildMask, grad_t, compute_h, compute_v, tAdd3,
      zerosLike, tpow2, reduceSum2, sub1, sub2]
  have hrun : runLoop (1/50) 100000 2 2 1 2 ⟨[[[0], [1]], [[0], [1]]], 2 * (1/50)⟩ 0
      = .error .sparseEmptyIndices := by
    show runLoop (1/50) 100000 2 2 1 (1 + 1) ⟨[[[0], [1]], [[0], [1]]], 2 * (1/50)⟩ 0
      = .error .sparseEmptyIndices
    simp only [runLoop]
    rw [if_pos (by norm_num), hbody]
  simp only [l0_image_smoothing, htoImg, hS0, eval_otf_fx_22, eval_otf_fy_22, hrun]

end L0Smooth
